import Mathlib

/-
Verification of the TUBA-Finances service-worker drafts.

The repository consists of five near-duplicate service-worker scripts:
  src/sw.js            (version v1.1 cache names, cache-first with a
                        network-first navigation branch)
  src/unnamed/part_000 (version v1.0 cache names, same-origin cache-first)
  src/unnamed/part_001 (iOS draft, version v1.0.1 cache names, network-first)
  src/unnamed/part_002 (version v2.1.0 cache names, cache-first with a
                        Supabase branch that caches API responses)
  src/unnamed/part_003 (version v1.2 cache names, cache-first with a
                        Supabase no-store bypass and a shell-presence guard)

Each event handler is embedded as a pure Lean function over an explicit
cache state.  Every handler additionally returns the list of effects it
performed (network fetches, cache lookups, cache opens, cache writes) so
that claims about the absence of network calls or caching side effects can
be stated directly.
-/

set_option autoImplicit false

namespace TubaSW

/-- Model of a platform Response: status code, status text, response
category (the JS "type" field: basic, cors, default, error, ...) and body. -/
structure Response where
  status : Nat
  statusText : String
  rtype : String
  body : String
deriving Repr, DecidableEq

/-- Model of a URL, split into scheme, host and path. -/
structure Url where
  scheme : String
  host : String
  path : String
deriving Repr, DecidableEq

/-- Serialisation of a URL, as read by request.url in the drafts. -/
def Url.href (u : Url) : String := u.scheme ++ "://" ++ u.host ++ u.path

/-- Origin of a URL, as read by url.origin in the drafts. -/
def Url.origin (u : Url) : String := u.scheme ++ "://" ++ u.host

/-- Hostname of a URL, as read by url.hostname in the drafts. -/
def Url.hostname (u : Url) : String := u.host

/-- Pathname of a URL, as read by url.pathname in the drafts. -/
def Url.pathname (u : Url) : String := u.path

/-- Model of an intercepted request: method, URL, request mode and the
value of the Accept header (none when the header is absent, in which case
headers.get returns null in JS). -/
structure Request where
  method : String
  url : Url
  mode : String
  accept : Option String
deriving Repr, DecidableEq

/-- Ambient service-worker context: the base path derived from the
registration scope, and the origin of the worker location. -/
structure Ctx where
  basePath : String
  locOrigin : String
deriving Repr, DecidableEq

/-- One observable effect performed by a handler. -/
inductive Effect where
  | netFetch (url : String) (noStore : Bool)
  | cacheMatch (key : String)
  | cacheOpen (name : String)
  | cachePut (name : String) (key : String)
deriving Repr, DecidableEq

/-- JS errors that can escape a handler promise. -/
inductive JsError where
  | typeError
  | netError
  | generic (msg : String)
deriving Repr, DecidableEq

/-- Outcome of the fetch event: not intercepted (no respondWith), a
response, a promise resolved with undefined, or a rejected promise. -/
inductive FetchOutcome where
  | passThrough
  | ok (r : Response)
  | okNone
  | err (e : JsError)
deriving Repr, DecidableEq

/-- Contents of one named cache: an association list from request
identity (the URL string) to the stored response.  The first entry for a
key is the visible one. -/
abbrev Partition := List (String × Response)

/-- The set of named cache partitions, in creation order, as enumerated by
caches.keys(). -/
abbrev CacheState := List (String × Partition)

/-- Result of running a fetch handler: the outcome, the ordered list of
effects performed, and the cache state afterwards. -/
structure HResult where
  outcome : FetchOutcome
  effects : List Effect
  caches : CacheState
deriving Repr, DecidableEq

/-- Lookup of a key inside one partition (Cache.match on that cache). -/
def partGet (p : Partition) (k : String) : Option Response :=
  match p with
  | [] => none
  | e :: rest => if e.1 = k then some e.2 else partGet rest k

/-- Store a key in one partition, replacing an existing entry for the same
key (Cache.put semantics: last write wins). -/
def partPut (p : Partition) (k : String) (r : Response) : Partition :=
  match p with
  | [] => [(k, r)]
  | e :: rest => if e.1 = k then (k, r) :: rest else e :: partPut rest k r

/-- Global lookup across every partition in order (caches.match). -/
def cachesMatch (cs : CacheState) (k : String) : Option Response :=
  match cs with
  | [] => none
  | c :: rest =>
    match partGet c.2 k with
    | some r => some r
    | none => cachesMatch rest k

/-- Open a named cache, creating an empty partition at the end when the
name does not exist yet (caches.open). -/
def cachesOpen (cs : CacheState) (name : String) : CacheState :=
  match cs with
  | [] => [(name, [])]
  | c :: rest => if c.1 = name then c :: rest else c :: cachesOpen rest name

/-- Write a key into the first partition with the given name; no effect
when no partition has that name. -/
def cachesPut (cs : CacheState) (name k : String) (r : Response) : CacheState :=
  match cs with
  | [] => []
  | c :: rest => if c.1 = name then (c.1, partPut c.2 k r) :: rest else c :: cachesPut rest name k r

/-- The caches.open followed by cache.put sequence used by every draft to
store a fetched response. -/
def openPut (cs : CacheState) (name k : String) (r : Response) : CacheState :=
  cachesPut (cachesOpen cs name) name k r

/-- Lookup of a key inside the partition with the given name
(caches.open(name) followed by cache.match(k), observationally). -/
def cachesGetIn (cs : CacheState) (name k : String) : Option Response :=
  match cs with
  | [] => none
  | c :: rest => if c.1 = name then partGet c.2 k else cachesGetIn rest name k

/-- The result of caches.match(request): per the Cache API, a request
whose method is not GET never matches. -/
def reqMatch (cs : CacheState) (req : Request) : Option Response :=
  if req.method = "GET" then cachesMatch cs req.url.href else none

/-- Whether the first list is an initial segment of the second. -/
def listStarts (pat s : List Char) : Bool :=
  match pat, s with
  | [], _ => true
  | _ :: _, [] => false
  | p :: ps, c :: cs => p == c && listStarts ps cs

/-- Whether the pattern occurs somewhere inside the list. -/
def listContains (s pat : List Char) : Bool :=
  match s with
  | [] => pat.isEmpty
  | _ :: rest => listStarts pat s || listContains rest pat

/-- Test mirroring String.prototype.startsWith. -/
def strStarts (s pat : String) : Bool := listStarts pat.data s.data

/-- Test mirroring String.prototype.endsWith. -/
def strEnds (s pat : String) : Bool := listStarts pat.data.reverse s.data.reverse

/-- Substring test mirroring String.prototype.includes. -/
def strIncludes (s pat : String) : Bool := listContains s.data pat.data

/-- Removal of the first occurrence of a pattern from a list. -/
def listDropFirst (s pat : List Char) : List Char :=
  if pat.isEmpty then s
  else match s with
  | [] => []
  | c :: rest =>
    if listStarts pat (c :: rest) then (c :: rest).drop pat.length
    else c :: listDropFirst rest pat

/-- Removal of the first occurrence of a pattern, mirroring the JS
String.prototype.replace(pat, empty string) with a string pattern. -/
def replaceFirst (s pat : String) : String :=
  String.mk (listDropFirst s.data pat.data)

/-- The headers.get("accept")?.includes("text/html") test used by sw.js
and part_003: false when the header is absent. -/
def acceptsHtml (req : Request) : Bool :=
  match req.accept with
  | some a => strIncludes a "text/html"
  | none => false

/-- The navigation test of sw.js and part_003: request.mode is navigate,
or the Accept header mentions text/html. -/
def isNavLike (req : Request) : Bool :=
  req.mode == "navigate" || acceptsHtml req

/-- The network: maps a URL to the fetched response, or none when the
fetch rejects (network failure). -/
abbrev Network := String → Option Response

/-- STATIC_CACHE of src/sw.js. -/
def STATIC_v11 : String := "tuba-static-v1.1"

/-- DYNAMIC_CACHE of src/sw.js. -/
def DYNAMIC_v11 : String := "tuba-dynamic-v1.1"

/-- STATIC_CACHE of src/unnamed/part_000. -/
def STATIC_v10 : String := "tuba-static-v1.0"

/-- DYNAMIC_CACHE of src/unnamed/part_000. -/
def DYNAMIC_v10 : String := "tuba-dynamic-v1.0"

/-- STATIC_CACHE of src/unnamed/part_001 (CACHE_VERSION v1.0.1). -/
def STATIC_ios : String := "tuba-static-v1.0.1"

/-- DYNAMIC_CACHE of src/unnamed/part_001 (CACHE_VERSION v1.0.1). -/
def DYNAMIC_ios : String := "tuba-dynamic-v1.0.1"

/-- CACHE_NAME of src/unnamed/part_002. -/
def CACHE_v210 : String := "tuba-v2.1.0"

/-- RUNTIME_CACHE of src/unnamed/part_002. -/
def RUNTIME_v210 : String := "tuba-runtime-v2.1.0"

/-- STATIC_CACHE of src/unnamed/part_003. -/
def STATIC_v12 : String := "tuba-static-v1.2"

/-- DYNAMIC_CACHE of src/unnamed/part_003. -/
def DYNAMIC_v12 : String := "tuba-dynamic-v1.2"

/-- The synthetic offline response of sw.js and part_003:
new Response(empty body, status 503, statusText Offline). -/
def resp503 : Response :=
  { status := 503, statusText := "Offline", rtype := "default", body := "" }

/-- The synthetic offline response of part_002 for non-navigation
failures: a 503 with a plain-text body. -/
def resp503Plain : Response :=
  { status := 503, statusText := "Service Unavailable", rtype := "default"
  , body := "Offline - resource not available" }

/-- The offline JSON response of the part_002 Supabase branch: a default
Response (status 200) whose body is the offline marker object. -/
def respOfflineJson : Response :=
  { status := 200, statusText := "", rtype := "default"
  , body := "\x7b\"offline\":true\x7d" }

/-
Fetch handler of src/sw.js (draft v1.1), lines 64 to 117.  Control flow:
skip non-GET; for navigation-like requests try the network first and fall
back to the shell; otherwise (or when the shell is also missing) run the
cache-first policy with the catch fallbacks.  The shared cache-first tail
(identical text in sw.js and part_003, up to the dynamic cache name) is
factored into cacheFirstCore.
-/

/-- Path-only fallback at the end of the catch branch of sw.js and
part_003: for same-origin requests, retry the cache under the base path
with the first occurrence of the base path removed from the pathname;
otherwise return the synthetic 503. -/
def pathFallbackTail (ctx : Ctx) (cs : CacheState) (req : Request) (acc : List Effect) : HResult :=
  if req.url.origin = ctx.locOrigin then
    match cachesMatch cs (ctx.basePath ++ replaceFirst req.url.pathname ctx.basePath) with
    | some pf =>
      ⟨.ok pf, acc ++ [.cacheMatch (ctx.basePath ++ replaceFirst req.url.pathname ctx.basePath)], cs⟩
    | none =>
      ⟨.ok resp503, acc ++ [.cacheMatch (ctx.basePath ++ replaceFirst req.url.pathname ctx.basePath)], cs⟩
  else ⟨.ok resp503, acc, cs⟩

/-- Catch branch of the cache-first policy of sw.js and part_003: for
navigation-like requests try the cached app shell first, then the
path-only fallback, then the synthetic 503. -/
def catchTail (ctx : Ctx) (cs : CacheState) (req : Request) (acc : List Effect) : HResult :=
  if isNavLike req then
    match cachesMatch cs (ctx.basePath ++ "index.html") with
    | some shell => ⟨.ok shell, acc ++ [.cacheMatch (ctx.basePath ++ "index.html")], cs⟩
    | none => pathFallbackTail ctx cs req (acc ++ [.cacheMatch (ctx.basePath ++ "index.html")])
  else pathFallbackTail ctx cs req acc

/-- Cache-first portion shared by sw.js and part_003 (parameterised by the
dynamic cache name): look the request up in any partition; on a miss fetch
it, store it into the dynamic partition when the status is 200 or the
response category is basic, cors or opaque, and return it; when the fetch
rejects run the catch fallbacks. -/
def cacheFirstCore (dynName : String) (ctx : Ctx) (net : Network) (cs : CacheState)
    (req : Request) (acc : List Effect) : HResult :=
  match cachesMatch cs req.url.href with
  | some cached => ⟨.ok cached, acc ++ [.cacheMatch req.url.href], cs⟩
  | none =>
    match net req.url.href with
    | some nr =>
      if nr.status = 200 ∨ nr.rtype ∈ ["basic", "cors", "opaque"] then
        ⟨.ok nr
        , acc ++ [.cacheMatch req.url.href, .netFetch req.url.href false,
            .cacheOpen dynName, .cachePut dynName req.url.href]
        , openPut cs dynName req.url.href nr⟩
      else ⟨.ok nr, acc ++ [.cacheMatch req.url.href, .netFetch req.url.href false], cs⟩
    | none => catchTail ctx cs req (acc ++ [.cacheMatch req.url.href, .netFetch req.url.href false])

/-- Fetch handler of src/sw.js. -/
def swFetch (ctx : Ctx) (net : Network) (cs : CacheState) (req : Request) : HResult :=
  if req.method = "GET" then
    if isNavLike req then
      match net req.url.href with
      | some fresh => ⟨.ok fresh, [.netFetch req.url.href false], cs⟩
      | none =>
        match cachesMatch cs (ctx.basePath ++ "index.html") with
        | some shell =>
          ⟨.ok shell, [.netFetch req.url.href false, .cacheMatch (ctx.basePath ++ "index.html")], cs⟩
        | none =>
          cacheFirstCore DYNAMIC_v11 ctx net cs req
            [.netFetch req.url.href false, .cacheMatch (ctx.basePath ++ "index.html")]
    else cacheFirstCore DYNAMIC_v11 ctx net cs req []
  else ⟨.passThrough, [], cs⟩

/-
Fetch handler of src/unnamed/part_000 (draft v1.0), lines 55 to 101.
Only same-origin requests are intercepted; there is NO method check, so a
same-origin non-GET request is intercepted as well (its cache lookup then
finds nothing, per the Cache API, and the cache.put attempt rejects, so
the write is modelled as guarded by the method).  In the catch branch the
code reads request.headers.get("accept").includes(...) WITHOUT optional
chaining: when the Accept header is absent the read throws a TypeError,
which rejects the respondWith promise. -/
def swV10Fetch (ctx : Ctx) (net : Network) (cs : CacheState) (req : Request) : HResult :=
  if req.url.origin = ctx.locOrigin then
    match reqMatch cs req with
    | some cached => ⟨.ok cached, [.cacheMatch req.url.href], cs⟩
    | none =>
      match net req.url.href with
      | some nr =>
        if nr.status ≠ 200 ∨ nr.rtype ≠ "basic" then
          ⟨.ok nr, [.cacheMatch req.url.href, .netFetch req.url.href false], cs⟩
        else
          ⟨.ok nr
          , [.cacheMatch req.url.href, .netFetch req.url.href false,
              .cacheOpen DYNAMIC_v10, .cachePut DYNAMIC_v10 req.url.href]
          , if req.method = "GET" then openPut cs DYNAMIC_v10 req.url.href nr
            else cachesOpen cs DYNAMIC_v10⟩
      | none =>
        match req.accept with
        | none => ⟨.err .typeError, [.cacheMatch req.url.href, .netFetch req.url.href false], cs⟩
        | some a =>
          if strIncludes a "text/html" then
            match cachesMatch cs "/index.html" with
            | some shell =>
              ⟨.ok shell
              , [.cacheMatch req.url.href, .netFetch req.url.href false, .cacheMatch "/index.html"], cs⟩
            | none =>
              ⟨.okNone
              , [.cacheMatch req.url.href, .netFetch req.url.href false, .cacheMatch "/index.html"], cs⟩
          else ⟨.err .netError, [.cacheMatch req.url.href, .netFetch req.url.href false], cs⟩
  else ⟨.passThrough, [], cs⟩

/-
Fetch handler of src/unnamed/part_001 (iOS draft), lines 57 to 109.
Network-first: skip non-GET requests and requests whose URL does not start
with http; fetch; cache and return good responses; on network failure fall
back to the cache, then to ./index.html for navigations, else reject. -/
def iosFetch (net : Network) (cs : CacheState) (req : Request) : HResult :=
  if req.method = "GET" then
    if strStarts req.url.href "http" then
      match net req.url.href with
      | some r =>
        if r.status ≠ 200 ∨ r.rtype = "error" then ⟨.ok r, [.netFetch req.url.href false], cs⟩
        else
          ⟨.ok r
          , [.netFetch req.url.href false, .cacheOpen DYNAMIC_ios, .cachePut DYNAMIC_ios req.url.href]
          , openPut cs DYNAMIC_ios req.url.href r⟩
      | none =>
        match cachesMatch cs req.url.href with
        | some c => ⟨.ok c, [.netFetch req.url.href false, .cacheMatch req.url.href], cs⟩
        | none =>
          if req.mode = "navigate" then
            match cachesMatch cs "./index.html" with
            | some s =>
              ⟨.ok s
              , [.netFetch req.url.href false, .cacheMatch req.url.href, .cacheMatch "./index.html"], cs⟩
            | none =>
              ⟨.okNone
              , [.netFetch req.url.href false, .cacheMatch req.url.href, .cacheMatch "./index.html"], cs⟩
          else
            ⟨.err (.generic "No cached response found")
            , [.netFetch req.url.href false, .cacheMatch req.url.href], cs⟩
    else ⟨.passThrough, [], cs⟩
  else ⟨.passThrough, [], cs⟩

/-
Fetch handler of src/unnamed/part_002 (draft v2.1.0), lines 62 to 151.
No method check.  Cross-origin requests not matching the CDN or Supabase
substrings pass through.  Requests whose URL mentions supabase.co are
fetched network-first and their response is stored into the runtime cache
(for any status; the put rejects for non-GET requests); on failure the
cache is consulted and an offline JSON object is synthesised.  Everything
else is cache-first, storing 200 non-error responses into CACHE_NAME for
same-origin URLs and into RUNTIME_CACHE otherwise, with an index.html
fallback for navigations and a plain 503 otherwise. -/
def tubaFetch (ctx : Ctx) (net : Network) (cs : CacheState) (req : Request) : HResult :=
  if req.url.origin ≠ ctx.locOrigin ∧ strIncludes req.url.href "supabase" = false ∧
      strIncludes req.url.href "cdnjs.cloudflare.com" = false ∧
      strIncludes req.url.href "cdn.jsdelivr.net" = false then
    ⟨.passThrough, [], cs⟩
  else if strIncludes req.url.href "supabase.co" then
    match net req.url.href with
    | some r =>
      ⟨.ok r
      , [.netFetch req.url.href false, .cacheOpen RUNTIME_v210, .cachePut RUNTIME_v210 req.url.href]
      , if req.method = "GET" then openPut cs RUNTIME_v210 req.url.href r
        else cachesOpen cs RUNTIME_v210⟩
    | none =>
      match reqMatch cs req with
      | some c => ⟨.ok c, [.netFetch req.url.href false, .cacheMatch req.url.href], cs⟩
      | none => ⟨.ok respOfflineJson, [.netFetch req.url.href false, .cacheMatch req.url.href], cs⟩
  else
    match reqMatch cs req with
    | some cached => ⟨.ok cached, [.cacheMatch req.url.href], cs⟩
    | none =>
      match net req.url.href with
      | some r =>
        if r.status ≠ 200 ∨ r.rtype = "error" then
          ⟨.ok r, [.cacheMatch req.url.href, .netFetch req.url.href false], cs⟩
        else if req.url.origin = ctx.locOrigin then
          ⟨.ok r
          , [.cacheMatch req.url.href, .netFetch req.url.href false,
              .cacheOpen CACHE_v210, .cachePut CACHE_v210 req.url.href]
          , if req.method = "GET" then openPut cs CACHE_v210 req.url.href r
            else cachesOpen cs CACHE_v210⟩
        else
          ⟨.ok r
          , [.cacheMatch req.url.href, .netFetch req.url.href false,
              .cacheOpen RUNTIME_v210, .cachePut RUNTIME_v210 req.url.href]
          , if req.method = "GET" then openPut cs RUNTIME_v210 req.url.href r
            else cachesOpen cs RUNTIME_v210⟩
      | none =>
        if req.mode = "navigate" then
          match cachesMatch cs "/index.html" with
          | some s =>
            ⟨.ok s
            , [.cacheMatch req.url.href, .netFetch req.url.href false, .cacheMatch "/index.html"], cs⟩
          | none =>
            ⟨.okNone
            , [.cacheMatch req.url.href, .netFetch req.url.href false, .cacheMatch "/index.html"], cs⟩
        else ⟨.ok resp503Plain, [.cacheMatch req.url.href, .netFetch req.url.href false], cs⟩

/-
Fetch handler of src/unnamed/part_003 (draft v1.2), lines 76 to 155.
Skip non-GET; requests whose hostname ends in supabase.co are fetched with
cache no-store, never stored and never looked up, with a synthetic 503 on
failure; navigation-like requests consult the shell immediately when the
navigator is offline, then go network-first with shell fallbacks, falling
through to the shared cache-first tail when no shell is cached. -/

/-- Sequential three-key shell lookup of the part_003 fetch handler (base
path + index.html, then the base path, then index.html), with the effects
it performs. -/
def shellLookup3 (ctx : Ctx) (cs : CacheState) : Option Response × List Effect :=
  match cachesMatch cs (ctx.basePath ++ "index.html") with
  | some r => (some r, [.cacheMatch (ctx.basePath ++ "index.html")])
  | none =>
    match cachesMatch cs ctx.basePath with
    | some r => (some r, [.cacheMatch (ctx.basePath ++ "index.html"), .cacheMatch ctx.basePath])
    | none =>
      match cachesMatch cs "index.html" with
      | some r =>
        (some r
        , [.cacheMatch (ctx.basePath ++ "index.html"), .cacheMatch ctx.basePath,
            .cacheMatch "index.html"])
      | none =>
        (none
        , [.cacheMatch (ctx.basePath ++ "index.html"), .cacheMatch ctx.basePath,
            .cacheMatch "index.html"])

/-- Network attempt of the part_003 navigation branch, with its shell
fallbacks and the fall-through into the cache-first tail. -/
def swV12NavFetch (ctx : Ctx) (net : Network) (cs : CacheState) (req : Request)
    (acc : List Effect) : HResult :=
  match net req.url.href with
  | some fresh => ⟨.ok fresh, acc ++ [.netFetch req.url.href false], cs⟩
  | none =>
    match shellLookup3 ctx cs with
    | (some s, eff) => ⟨.ok s, acc ++ [.netFetch req.url.href false] ++ eff, cs⟩
    | (none, eff) =>
      cacheFirstCore DYNAMIC_v12 ctx net cs req (acc ++ [.netFetch req.url.href false] ++ eff)

/-- Fetch handler of src/unnamed/part_003.  The online flag models
self.navigator.onLine. -/
def swV12Fetch (ctx : Ctx) (net : Network) (online : Bool) (cs : CacheState)
    (req : Request) : HResult :=
  if req.method = "GET" then
    if strEnds req.url.hostname "supabase.co" then
      match net req.url.href with
      | some fresh => ⟨.ok fresh, [.netFetch req.url.href true], cs⟩
      | none => ⟨.ok resp503, [.netFetch req.url.href true], cs⟩
    else if isNavLike req then
      if online then swV12NavFetch ctx net cs req []
      else
        match shellLookup3 ctx cs with
        | (some s, eff) => ⟨.ok s, eff, cs⟩
        | (none, eff) => swV12NavFetch ctx net cs req eff
    else cacheFirstCore DYNAMIC_v12 ctx net cs req []
  else ⟨.passThrough, [], cs⟩

/-
Activate handlers.
-/

/-- Activate handler of src/sw.js, lines 44 to 61: delete every cache
whose name is neither STATIC_CACHE nor DYNAMIC_CACHE.  The part_000 and
part_002 activate handlers have the same shape with their own names. -/
def swActivate (cs : CacheState) : CacheState :=
  cs.filter fun c => c.1 == STATIC_v11 || c.1 == DYNAMIC_v11

/-- Activate handler of src/unnamed/part_001, lines 38 to 54: delete only
the caches that start with the tuba- prefix and are neither current
name. -/
def iosActivate (cs : CacheState) : CacheState :=
  cs.filter fun c => !(strStarts c.1 "tuba-" && !(c.1 == STATIC_ios) && !(c.1 == DYNAMIC_ios))

/-- Activate handler of src/unnamed/part_003, lines 47 to 73: open the
static cache, check that the app shell is present in it (under the base
path + index.html, or index.html, or the base path), and only then delete
the non-current caches. -/
def swV12Activate (ctx : Ctx) (cs : CacheState) : CacheState :=
  let cs1 := cachesOpen cs STATIC_v12
  let hasShell := (cachesGetIn cs1 STATIC_v12 (ctx.basePath ++ "index.html")).isSome
    || (cachesGetIn cs1 STATIC_v12 "index.html").isSome
    || (cachesGetIn cs1 STATIC_v12 ctx.basePath).isSome
  if hasShell then cs1.filter (fun c => c.1 == STATIC_v12 || c.1 == DYNAMIC_v12) else cs1

/-
Install handlers.
-/

/-- CDN_ASSETS shared by sw.js and part_003. -/
def cdnAssets : List String :=
  [ "https://cdn.jsdelivr.net/npm/@supabase/supabase-js@2"
  , "https://cdnjs.cloudflare.com/ajax/libs/jspdf/2.5.1/jspdf.umd.min.js"
  , "https://cdnjs.cloudflare.com/ajax/libs/xlsx/0.18.5/xlsx.full.min.js"
  , "https://cdn.jsdelivr.net/npm/chart.js@4.4.0/dist/chart.umd.min.js" ]

/-- STATIC_ASSETS of src/sw.js: subpath-aware app-shell files plus the CDN
assets. -/
def staticAssetsV11 (ctx : Ctx) : List String :=
  [ ctx.basePath ++ "index.html"
  , ctx.basePath ++ "manifest.json"
  , ctx.basePath ++ "tuba-icon.png" ] ++ cdnAssets

/-- STATIC_ASSETS of src/unnamed/part_003: essentials only, the CDN assets
are left to runtime caching. -/
def staticAssetsV12 (ctx : Ctx) : List String :=
  [ ctx.basePath ++ "index.html"
  , ctx.basePath
  , ctx.basePath ++ "manifest.json"
  , ctx.basePath ++ "tuba-icon.png" ]

/-- Result of an install handler: the cache state, whether skipWaiting was
reached, and whether the promise given to waitUntil rejected (aborting the
install). -/
structure InstallResult where
  caches : CacheState
  skipWaiting : Bool
  aborted : Bool
deriving Repr, DecidableEq

/-- Atomic cache.addAll over an asset list: when every fetch succeeds all
entries are stored, otherwise the batch rejects and nothing is stored. -/
def addAllAtomic (net : Network) (cs : CacheState) (name : String) (assets : List String) :
    Except JsError CacheState :=
  if assets.all (fun u => (net u).isSome) then
    .ok (assets.foldl (fun acc u =>
      match net u with
      | some r => cachesPut acc name u r
      | none => acc) cs)
  else .error .netError

/-- Install handler of src/sw.js, lines 25 to 41: open the static cache,
addAll the asset list, then skipWaiting; the trailing catch only logs, so
the waitUntil promise never rejects and the install is never aborted.  The
part_000 and part_002 install handlers have the same shape. -/
def swInstall (ctx : Ctx) (net : Network) (cs : CacheState) : InstallResult :=
  let cs1 := cachesOpen cs STATIC_v11
  match addAllAtomic net cs1 STATIC_v11 (staticAssetsV11 ctx) with
  | .ok cs2 => { caches := cs2, skipWaiting := true, aborted := false }
  | .error _ => { caches := cs1, skipWaiting := false, aborted := false }

/-- Install handler of src/unnamed/part_003, lines 25 to 44: each asset is
added individually with its own catch, so a failing asset is skipped and
the install continues; skipWaiting is always reached and the outer catch
swallows any error. -/
def swV12Install (ctx : Ctx) (net : Network) (cs : CacheState) : InstallResult :=
  let cs1 := cachesOpen cs STATIC_v12
  let cs2 := (staticAssetsV12 ctx).foldl (fun acc u =>
    match net u with
    | some r => cachesPut acc STATIC_v12 u r
    | none => acc) cs1
  { caches := cs2, skipWaiting := true, aborted := false }

/-
Message handler of src/unnamed/part_001, lines 112 to 130.
-/

/-- Message handler of src/unnamed/part_001: the data argument is the
message type when event.data is an object with a type field, none
otherwise.  SKIP_WAITING triggers skipWaiting (second component);
CLEAR_CACHE deletes every cache whose name starts with tuba-; any other
type falls through with no effect. -/
def iosMessage (cs : CacheState) (data : Option String) : CacheState × Bool :=
  match data with
  | none => (cs, false)
  | some t =>
    let sw := t == "SKIP_WAITING"
    let cs1 := if t == "CLEAR_CACHE" then cs.filter (fun c => !(strStarts c.1 "tuba-")) else cs
    (cs1, sw)

/-
Concrete inputs used by the counterexamples and witnesses.
-/

/-- Example context: registration scope at the site root. -/
def ctxEx : Ctx := { basePath := "/", locOrigin := "https://app.test" }

/-- Example same-origin page URL. -/
def urlPage : Url := { scheme := "https", host := "app.test", path := "/page" }

/-- Example cross-origin URL. -/
def urlCross : Url := { scheme := "https", host := "cdn.test", path := "/x.js" }

/-- Example browser-extension URL (non-HTTP scheme). -/
def urlExt : Url := { scheme := "chrome-extension", host := "abcdef", path := "/x.js" }

/-- Example Supabase REST URL. -/
def urlSb : Url := { scheme := "https", host := "xyz.supabase.co", path := "/rest/v1/q" }

/-- A cached 200 basic response. -/
def respCached : Response := { status := 200, statusText := "", rtype := "basic", body := "cached" }

/-- A fresh 200 basic response from the network. -/
def respFresh : Response := { status := 200, statusText := "", rtype := "basic", body := "fresh" }

/-- A 404 response of category basic. -/
def resp404basic : Response := { status := 404, statusText := "", rtype := "basic", body := "nf" }

/-- A network on which every fetch succeeds with the fresh response. -/
def netFresh : Network := fun _ => some respFresh

/-- A network on which every fetch rejects. -/
def netDown : Network := fun _ => none

/-- A network on which every fetch yields the 404 basic response. -/
def net404 : Network := fun _ => some resp404basic

/-- A network on which exactly the CDN URLs fail. -/
def netNoCdn : Network := fun u => if strStarts u "https://cdn" then none else some respFresh

/-- A navigation GET request for the example page. -/
def reqNav : Request :=
  { method := "GET", url := urlPage, mode := "navigate", accept := some "text/html" }

/-- A plain (non-navigation) GET request for the example page. -/
def reqPlain : Request :=
  { method := "GET", url := urlPage, mode := "no-cors", accept := some "*/*" }

/-- A same-origin GET request that accepts JSON only. -/
def reqJson : Request :=
  { method := "GET", url := urlPage, mode := "cors", accept := some "application/json" }

/-- A cross-origin GET request. -/
def reqCross : Request :=
  { method := "GET", url := urlCross, mode := "cors", accept := some "*/*" }

/-- A same-origin POST request. -/
def reqPost : Request :=
  { method := "POST", url := urlPage, mode := "cors", accept := some "*/*" }

/-- A cross-origin CDN URL matched by the part_002 substring filter. -/
def urlCdn : Url := { scheme := "https", host := "cdn.jsdelivr.net", path := "/npm/chart.js" }

/-- A cross-origin POST request to the matched CDN host. -/
def reqCdnPost : Request :=
  { method := "POST", url := urlCdn, mode := "cors", accept := some "*/*" }

/-- A GET request with a browser-extension URL. -/
def reqExt : Request :=
  { method := "GET", url := urlExt, mode := "cors", accept := some "*/*" }

/-- A GET request to the Supabase host. -/
def reqSb : Request :=
  { method := "GET", url := urlSb, mode := "cors", accept := some "*/*" }

/-- A same-origin GET request carrying no Accept header. -/
def reqNoAccept : Request :=
  { method := "GET", url := urlPage, mode := "cors", accept := none }

/-- A cache state in which the example page is cached in the static
partition of sw.js. -/
def csC1 : CacheState := [(STATIC_v11, [("https://app.test/page", respCached)])]

/-- A cache state with a stale partition whose name does not carry the
tuba- prefix. -/
def csC3 : CacheState := [("other-v1", []), (STATIC_ios, []), ("tuba-old", [])]

/-- A cache state in which the v1.2 static partition holds the app shell
and a stale partition exists. -/
def csGuard : CacheState := [(STATIC_v12, [("/index.html", respCached)]), ("tuba-old", [])]

/-
Helper lemmas about the cache-state operations and about totality of the
fetch fallbacks.
-/

theorem partGet_partPut_self (p : Partition) (k : String) (r : Response) :
    partGet (partPut p k r) k = some r := by
  induction p with
  | nil => simp [partPut, partGet]
  | cons e rest ih =>
    by_cases h : e.1 = k
    · simp [partPut, partGet, h]
    · simp [partPut, partGet, h, ih]

theorem cachesGetIn_openPut (cs : CacheState) (n k : String) (r : Response) :
    cachesGetIn (openPut cs n k r) n k = some r := by
  induction cs with
  | nil => simp [openPut, cachesOpen, cachesPut, cachesGetIn, partGet_partPut_self]
  | cons c rest ih =>
    by_cases h : c.1 = n
    · simp [openPut, cachesOpen, cachesPut, cachesGetIn, h, partGet_partPut_self]
    · rw [openPut, show cachesOpen (c :: rest) n = c :: cachesOpen rest n by simp [cachesOpen, h],
        show cachesPut (c :: cachesOpen rest n) n k r
            = c :: cachesPut (cachesOpen rest n) n k r by simp [cachesPut, h],
        show cachesGetIn (c :: cachesPut (cachesOpen rest n) n k r) n k
            = cachesGetIn (cachesPut (cachesOpen rest n) n k r) n k by simp [cachesGetIn, h]]
      simpa [openPut] using ih

theorem cachesMatch_cachesOpen (cs : CacheState) (n k : String) :
    cachesMatch (cachesOpen cs n) k = cachesMatch cs k := by
  induction cs with
  | nil => simp [cachesOpen, cachesMatch, partGet]
  | cons c rest ih =>
    by_cases h : c.1 = n
    · simp [cachesOpen, h]
    · simp only [cachesOpen, cachesMatch, if_neg h]
      rw [ih]

theorem cachesOpen_of_getIn (cs : CacheState) (n k : String) (r : Response)
    (h : cachesGetIn cs n k = some r) : cachesOpen cs n = cs := by
  induction cs with
  | nil => simp [cachesGetIn] at h
  | cons c rest ih =>
    by_cases hc : c.1 = n
    · simp [cachesOpen, hc]
    · simp only [cachesGetIn, if_neg hc] at h
      simp [cachesOpen, hc, ih h]

theorem pathFallbackTail_ok (ctx : Ctx) (cs : CacheState) (req : Request) (acc : List Effect) :
    ∃ r, (pathFallbackTail ctx cs req acc).outcome = .ok r := by
  unfold pathFallbackTail
  split
  · split <;> exact ⟨_, rfl⟩
  · exact ⟨_, rfl⟩

theorem catchTail_ok (ctx : Ctx) (cs : CacheState) (req : Request) (acc : List Effect) :
    ∃ r, (catchTail ctx cs req acc).outcome = .ok r := by
  unfold catchTail
  split
  · split
    · exact ⟨_, rfl⟩
    · exact pathFallbackTail_ok ..
  · exact pathFallbackTail_ok ..

theorem cacheFirstCore_ok (d : String) (ctx : Ctx) (net : Network) (cs : CacheState)
    (req : Request) (acc : List Effect) :
    ∃ r, (cacheFirstCore d ctx net cs req acc).outcome = .ok r := by
  unfold cacheFirstCore
  split
  · exact ⟨_, rfl⟩
  · split
    · split <;> exact ⟨_, rfl⟩
    · exact catchTail_ok ..

theorem swFetch_get_ok (ctx : Ctx) (net : Network) (cs : CacheState) (req : Request)
    (hm : req.method = "GET") : ∃ r, (swFetch ctx net cs req).outcome = .ok r := by
  unfold swFetch
  rw [if_pos hm]
  split
  · split
    · exact ⟨_, rfl⟩
    · split
      · exact ⟨_, rfl⟩
      · exact cacheFirstCore_ok ..
  · exact cacheFirstCore_ok ..

theorem swV12NavFetch_ok (ctx : Ctx) (net : Network) (cs : CacheState) (req : Request)
    (acc : List Effect) : ∃ r, (swV12NavFetch ctx net cs req acc).outcome = .ok r := by
  unfold swV12NavFetch
  split
  · exact ⟨_, rfl⟩
  · split
    · exact ⟨_, rfl⟩
    · exact cacheFirstCore_ok ..

theorem swV12Fetch_get_ok (ctx : Ctx) (net : Network) (online : Bool) (cs : CacheState)
    (req : Request) (hm : req.method = "GET") :
    ∃ r, (swV12Fetch ctx net online cs req).outcome = .ok r := by
  unfold swV12Fetch
  rw [if_pos hm]
  split
  · split <;> exact ⟨_, rfl⟩
  · split
    · split
      · exact swV12NavFetch_ok ..
      · split
        · exact ⟨_, rfl⟩
        · exact swV12NavFetch_ok ..
    · exact cacheFirstCore_ok ..

theorem notAndNotNot_eq_true_iff (a b c : Bool) :
    (!(a && !b && !c)) = true ↔ ¬(a = true ∧ b = false ∧ c = false) := by
  cases a <;> cases b <;> cases c <;> simp

/-
Claim theorems.
-/

/-- C1 (counterexample): in the sw.js draft a navigation GET request whose
identity is cached is NOT served from the cache: the handler issues a
network fetch and returns the fresh network response, not the cached one,
so the claim fails for navigation and HTML-accepting GET requests. -/
theorem C1_counterexample :
    reqNav.method = "GET" ∧
    cachesMatch csC1 reqNav.url.href = some respCached ∧
    (swFetch ctxEx netFresh csC1 reqNav).outcome ≠ .ok respCached ∧
    Effect.netFetch reqNav.url.href false ∈ (swFetch ctxEx netFresh csC1 reqNav).effects := by
  decide

/-- C1 (amended): the cache-first interceptors answer a cached GET request
from the cache with no network fetch, except for the navigation and
HTML-accepting requests of sw.js: in sw.js this holds for every
non-navigation, non-HTML-accepting GET request, and in part_002 for every
handled same-origin non-Supabase GET request of any mode; in both cases
the only effect is the single cache lookup and the caches are unchanged. -/
theorem C1_amended_cacheHit :
    (∀ (ctx : Ctx) (net : Network) (cs : CacheState) (req : Request) (c : Response),
      req.method = "GET" → isNavLike req = false →
      cachesMatch cs req.url.href = some c →
      swFetch ctx net cs req = ⟨.ok c, [.cacheMatch req.url.href], cs⟩) ∧
    (∀ (ctx : Ctx) (net : Network) (cs : CacheState) (req : Request) (c : Response),
      req.method = "GET" → req.url.origin = ctx.locOrigin →
      strIncludes req.url.href "supabase.co" = false →
      cachesMatch cs req.url.href = some c →
      tubaFetch ctx net cs req = ⟨.ok c, [.cacheMatch req.url.href], cs⟩) := by
  constructor
  · intro ctx net cs req c hm hnav hc
    simp [swFetch, cacheFirstCore, hm, hnav, hc]
  · intro ctx net cs req c hm ho hsb hc
    simp [tubaFetch, reqMatch, hm, ho, hsb, hc]

/-- C1 witness: the amended cache-hit theorem applied to the example page
request of sw.js. -/
theorem C1_amended_cacheHit_witness :
    swFetch ctxEx netFresh csC1 reqPlain
      = ⟨.ok respCached, [.cacheMatch reqPlain.url.href], csC1⟩ :=
  C1_amended_cacheHit.1 ctxEx netFresh csC1 reqPlain respCached rfl (by decide) (by decide)

/-- C7: in the part_003 draft every GET request whose hostname ends in
supabase.co bypasses the cache entirely: the only effect is one no-store
network fetch, no partition is read or written, the network response is
returned as is, and a network failure yields the synthetic 503; a non-GET
request to that host passes through with no effect at all. -/
theorem C7_supabaseBypass :
    ∀ (ctx : Ctx) (net : Network) (online : Bool) (cs : CacheState) (req : Request),
      strEnds req.url.hostname "supabase.co" = true →
      (req.method = "GET" →
        (swV12Fetch ctx net online cs req).caches = cs ∧
        (swV12Fetch ctx net online cs req).effects = [.netFetch req.url.href true] ∧
        (∀ r, net req.url.href = some r → (swV12Fetch ctx net online cs req).outcome = .ok r) ∧
        (net req.url.href = none → (swV12Fetch ctx net online cs req).outcome = .ok resp503)) ∧
      (req.method ≠ "GET" → swV12Fetch ctx net online cs req = ⟨.passThrough, [], cs⟩) := by
  intro ctx net online cs req hsb
  constructor
  · intro hm
    cases hn : net req.url.href <;> simp [swV12Fetch, hm, hsb, hn]
  · intro hm
    simp [swV12Fetch, hm]

/-- C7 witness: the Supabase bypass theorem applied to a concrete Supabase
GET request on a working network. -/
theorem C7_supabaseBypass_witness :
    (swV12Fetch ctxEx netFresh true [] reqSb).caches = [] ∧
    (swV12Fetch ctxEx netFresh true [] reqSb).effects = [.netFetch reqSb.url.href true] ∧
    (swV12Fetch ctxEx netFresh true [] reqSb).outcome = .ok respFresh := by
  have h := C7_supabaseBypass ctxEx netFresh true [] reqSb (by decide)
  exact ⟨(h.1 rfl).1, (h.1 rfl).2.1, (h.1 rfl).2.2.1 respFresh rfl⟩

/-- C9: the part_001 message handler on CLEAR_CACHE keeps exactly the
caches whose names do not start with tuba-, deleting exactly the
tuba-prefixed ones; an unrecognized message type, or a message without
data, leaves the cache set unchanged. -/
theorem C9_clearCache :
    (∀ (cs : CacheState) (e : String × Partition),
      e ∈ (iosMessage cs (some "CLEAR_CACHE")).1 ↔
        e ∈ cs ∧ strStarts e.1 "tuba-" = false) ∧
    (∀ (cs : CacheState) (t : String), t ≠ "SKIP_WAITING" → t ≠ "CLEAR_CACHE" →
      iosMessage cs (some t) = (cs, false)) ∧
    (∀ cs : CacheState, iosMessage cs none = (cs, false)) := by
  refine ⟨?_, ?_, ?_⟩
  · intro cs e
    simp [iosMessage, List.mem_filter]
  · intro cs t h1 h2
    simp [iosMessage, beq_eq_false_iff_ne, h1, h2, beq_iff_eq]
  · intro cs
    rfl

/-- C9 witness: the CLEAR_CACHE theorem applied to an unrecognized message
type on a concrete cache set. -/
theorem C9_clearCache_witness :
    iosMessage [("tuba-old", ([] : Partition))] (some "CACHE_URLS")
      = ([("tuba-old", ([] : Partition))], false) :=
  C9_clearCache.2.1 _ "CACHE_URLS" (by decide) (by decide)

/-- C10: in part_000 a same-origin GET request carrying no Accept header,
whose cache lookup misses and whose live fetch rejects, makes the catch
branch dereference the null header value: the respondWith promise rejects
with a TypeError and no Response is produced. -/
theorem C10_nullAcceptTypeError :
    ∀ (ctx : Ctx) (net : Network) (cs : CacheState) (req : Request),
      req.method = "GET" → req.url.origin = ctx.locOrigin → req.accept = none →
      cachesMatch cs req.url.href = none → net req.url.href = none →
      (swV10Fetch ctx net cs req).outcome = .err .typeError := by
  intro ctx net cs req hm ho ha hc hn
  simp [swV10Fetch, reqMatch, hm, ho, ha, hc, hn]

/-- C10 witness: the TypeError theorem applied to a concrete request
without an Accept header on an unreachable network. -/
theorem C10_nullAcceptTypeError_witness :
    (swV10Fetch ctxEx netDown [] reqNoAccept).outcome = .err .typeError :=
  C10_nullAcceptTypeError ctxEx netDown [] reqNoAccept rfl (by decide) rfl rfl rfl

/-- C3 (counterexample): the part_001 activate handler keeps the stale
partition named other-v1 although that name differs from both current
cache names, because it only deletes tuba-prefixed caches; so activation
does not delete every non-current partition and the surviving set is not
a subset of the current pair. -/
theorem C3_counterexample :
    ("other-v1" : String) ≠ STATIC_ios ∧ ("other-v1" : String) ≠ DYNAMIC_ios ∧
    iosActivate csC3 = [("other-v1", []), (STATIC_ios, [])] := by
  decide

/-- C3 (amended): activation in sw.js (and the equally shaped part_000 and
part_002 handlers) keeps exactly the partitions carrying one of the two
current names, deleting every other one and never a current one; the
part_001 handler does the same only among tuba-prefixed partitions,
leaving foreign names untouched; the part_003 handler does the same under
the guard hypothesis that the app shell is present in the current static
partition. -/
theorem C3_amended_activate :
    (∀ (cs : CacheState) (e : String × Partition),
      e ∈ swActivate cs ↔ e ∈ cs ∧ (e.1 = STATIC_v11 ∨ e.1 = DYNAMIC_v11)) ∧
    (∀ (cs : CacheState) (e : String × Partition),
      e ∈ iosActivate cs ↔
        e ∈ cs ∧ ¬(strStarts e.1 "tuba-" = true ∧ e.1 ≠ STATIC_ios ∧ e.1 ≠ DYNAMIC_ios)) ∧
    (∀ (ctx : Ctx) (cs : CacheState) (r : Response),
      cachesGetIn cs STATIC_v12 (ctx.basePath ++ "index.html") = some r →
      (∀ e ∈ swV12Activate ctx cs, e.1 = STATIC_v12 ∨ e.1 = DYNAMIC_v12) ∧
      (∀ e ∈ cs, (e.1 = STATIC_v12 ∨ e.1 = DYNAMIC_v12) → e ∈ swV12Activate ctx cs)) := by
  refine ⟨?_, ?_, ?_⟩
  · intro cs e
    simp [swActivate, List.mem_filter]
  · intro cs e
    unfold iosActivate
    rw [List.mem_filter]
    refine and_congr_right fun _ => ?_
    show (!(strStarts e.1 "tuba-" && !(e.1 == STATIC_ios) && !(e.1 == DYNAMIC_ios))) = true ↔ _
    rw [notAndNotNot_eq_true_iff]
    simp [beq_eq_false_iff_ne]
  · intro ctx cs r h
    have hopen : cachesOpen cs STATIC_v12 = cs := cachesOpen_of_getIn _ _ _ _ h
    have hact : swV12Activate ctx cs
        = cs.filter (fun c => c.1 == STATIC_v12 || c.1 == DYNAMIC_v12) := by
      simp [swV12Activate, hopen, h]
    constructor
    · intro e he
      rw [hact] at he
      have hm := List.mem_filter.mp he
      simpa using hm.2
    · intro e he hcur
      rw [hact]
      exact List.mem_filter.mpr ⟨he, by simpa using hcur⟩

/-- C3 witness: the amended activation theorem applied to a concrete cache
state in which the v1.2 shell guard passes; the stale tuba-old partition
is deleted. -/
theorem C3_amended_activate_witness :
    ("tuba-old", ([] : Partition)) ∉ swV12Activate ctxEx csGuard := by
  intro hmem
  have h := ((C3_amended_activate.2.2 ctxEx csGuard respCached (by decide)).1) _ hmem
  exact absurd h (by decide)

/-- C4 (counterexample): in part_000 a same-origin GET request that does
not accept HTML, on a cache miss with the network down, is answered by
rethrowing the network error: the promise rejects instead of yielding a
synthetic 503, so the interceptor does propagate the failure. -/
theorem C4_counterexample :
    reqJson.method = "GET" ∧
    (swV10Fetch ctxEx netDown [] reqJson).outcome = .err .netError := by
  decide

/-- C4 (amended): when the live fetch throws, sw.js always resolves with
some Response (never propagating an error), and in the specific
non-navigation cross-origin cache-miss case resolves with the synthetic
503 leaving the caches unchanged; part_000 instead rethrows the network
error for requests that do not accept HTML, and for HTML-accepting
requests resolves with the result of the shell lookup. -/
theorem C4_amended_fetchFail :
    (∀ (ctx : Ctx) (net : Network) (cs : CacheState) (req : Request),
      req.method = "GET" → ∃ r, (swFetch ctx net cs req).outcome = .ok r) ∧
    (∀ (ctx : Ctx) (net : Network) (cs : CacheState) (req : Request),
      req.method = "GET" → isNavLike req = false → req.url.origin ≠ ctx.locOrigin →
      cachesMatch cs req.url.href = none → net req.url.href = none →
      (swFetch ctx net cs req).outcome = .ok resp503 ∧ (swFetch ctx net cs req).caches = cs) ∧
    (∀ (ctx : Ctx) (net : Network) (cs : CacheState) (req : Request) (a : String),
      req.method = "GET" → req.url.origin = ctx.locOrigin →
      cachesMatch cs req.url.href = none → net req.url.href = none →
      req.accept = some a → strIncludes a "text/html" = false →
      (swV10Fetch ctx net cs req).outcome = .err .netError) ∧
    (∀ (ctx : Ctx) (net : Network) (cs : CacheState) (req : Request) (a : String) (s : Response),
      req.method = "GET" → req.url.origin = ctx.locOrigin →
      cachesMatch cs req.url.href = none → net req.url.href = none →
      req.accept = some a → strIncludes a "text/html" = true →
      cachesMatch cs "/index.html" = some s →
      (swV10Fetch ctx net cs req).outcome = .ok s) := by
  refine ⟨?_, ?_, ?_, ?_⟩
  · intro ctx net cs req hm
    exact swFetch_get_ok ctx net cs req hm
  · intro ctx net cs req hm hnav ho hmiss hnet
    constructor <;>
      simp [swFetch, hm, hnav, cacheFirstCore, hmiss, hnet, catchTail, pathFallbackTail, ho]
  · intro ctx net cs req a hm ho hmiss hnet ha hna
    simp [swV10Fetch, reqMatch, hm, ho, hmiss, hnet, ha, hna]
  · intro ctx net cs req a s hm ho hmiss hnet ha hna hs
    simp [swV10Fetch, reqMatch, hm, ho, hmiss, hnet, ha, hna, hs]

/-- C4 witness: the amended fetch-failure theorem applied to a concrete
cross-origin request on an unreachable network: sw.js yields the
synthetic 503. -/
theorem C4_amended_fetchFail_witness :
    (swFetch ctxEx netDown [] reqCross).outcome = .ok resp503 ∧
    (swFetch ctxEx netDown [] reqCross).caches = [] :=
  C4_amended_fetchFail.2.1 ctxEx netDown [] reqCross rfl (by decide) (by decide) rfl rfl

/-- C6 (counterexample): sw.js has no scheme filter, so a GET request with
a browser-extension URL is intercepted (respondWith is called) rather than
ignored, contradicting the claim that every draft ignores non-HTTP(S)
schemes. -/
theorem C6_counterexample :
    strStarts reqExt.url.href "http" = false ∧ reqExt.method = "GET" ∧
    (swFetch ctxEx netDown [] reqExt).outcome ≠ .passThrough := by
  decide

/-- C6 (amended): part_001 ignores every request whose URL does not start
with http; part_000 and part_002 ignore non-HTT(S) schemes only as a side
effect of their origin and CDN-substring filters; sw.js and part_003 have
no scheme filter at all and intercept every GET request, whatever its
scheme. -/
theorem C6_amended_schemes :
    (∀ (net : Network) (cs : CacheState) (req : Request),
      strStarts req.url.href "http" = false → iosFetch net cs req = ⟨.passThrough, [], cs⟩) ∧
    (∀ (ctx : Ctx) (net : Network) (cs : CacheState) (req : Request),
      req.url.origin ≠ ctx.locOrigin → swV10Fetch ctx net cs req = ⟨.passThrough, [], cs⟩) ∧
    (∀ (ctx : Ctx) (net : Network) (cs : CacheState) (req : Request),
      req.url.origin ≠ ctx.locOrigin → strIncludes req.url.href "supabase" = false →
      strIncludes req.url.href "cdnjs.cloudflare.com" = false →
      strIncludes req.url.href "cdn.jsdelivr.net" = false →
      tubaFetch ctx net cs req = ⟨.passThrough, [], cs⟩) ∧
    (∀ (ctx : Ctx) (net : Network) (cs : CacheState) (req : Request),
      req.method = "GET" → (swFetch ctx net cs req).outcome ≠ .passThrough) ∧
    (∀ (ctx : Ctx) (net : Network) (online : Bool) (cs : CacheState) (req : Request),
      req.method = "GET" → (swV12Fetch ctx net online cs req).outcome ≠ .passThrough) := by
  refine ⟨?_, ?_, ?_, ?_, ?_⟩
  · intro net cs req h
    unfold iosFetch
    by_cases hm : req.method = "GET"
    · rw [if_pos hm, if_neg (by simp [h])]
    · rw [if_neg hm]
  · intro ctx net cs req ho
    unfold swV10Fetch
    rw [if_neg ho]
  · intro ctx net cs req ho h1 h2 h3
    unfold tubaFetch
    rw [if_pos ⟨ho, h1, h2, h3⟩]
  · intro ctx net cs req hm
    obtain ⟨r, hr⟩ := swFetch_get_ok ctx net cs req hm
    rw [hr]
    simp
  · intro ctx net online cs req hm
    obtain ⟨r, hr⟩ := swV12Fetch_get_ok ctx net online cs req hm
    rw [hr]
    simp

/-- C6 witness: the amended scheme theorem applied to the concrete
browser-extension request in the part_001 draft, which does ignore it. -/
theorem C6_amended_schemes_witness :
    iosFetch netDown [] reqExt = ⟨.passThrough, [], []⟩ :=
  C6_amended_schemes.1 netDown [] reqExt (by decide)

/-- C2 (counterexample): the sw.js storing condition is a disjunction, not
a conjunction: a 404 response of category basic is stored into the dynamic
partition although its status is not 200, so the claim that a response
failing either conjunct is returned without being stored is false. -/
theorem C2_counterexample :
    resp404basic.status ≠ 200 ∧
    cachesGetIn (swFetch ctxEx net404 [] reqPlain).caches DYNAMIC_v11 reqPlain.url.href
      = some resp404basic := by
  decide

/-- C2 (amended): on a cache miss the network response is returned, and a
copy is stored into the dynamic partition exactly when the draft-specific
condition holds: status 200 AND category basic in part_000, but status 200
OR category in (basic, cors, opaque) in sw.js and part_003 — a disjunction,
so for example a non-200 basic response is stored there as well. -/
theorem C2_amended_cacheMissStore :
    (∀ (ctx : Ctx) (net : Network) (cs : CacheState) (req : Request) (r : Response),
      req.method = "GET" → isNavLike req = false →
      cachesMatch cs req.url.href = none → net req.url.href = some r →
      (swFetch ctx net cs req).outcome = .ok r ∧
      ((r.status = 200 ∨ r.rtype ∈ ["basic", "cors", "opaque"]) →
        cachesGetIn (swFetch ctx net cs req).caches DYNAMIC_v11 req.url.href = some r) ∧
      (¬(r.status = 200 ∨ r.rtype ∈ ["basic", "cors", "opaque"]) →
        (swFetch ctx net cs req).caches = cs)) ∧
    (∀ (ctx : Ctx) (net : Network) (cs : CacheState) (req : Request) (r : Response),
      req.method = "GET" → req.url.origin = ctx.locOrigin →
      cachesMatch cs req.url.href = none → net req.url.href = some r →
      (swV10Fetch ctx net cs req).outcome = .ok r ∧
      (r.status = 200 ∧ r.rtype = "basic" →
        cachesGetIn (swV10Fetch ctx net cs req).caches DYNAMIC_v10 req.url.href = some r) ∧
      (¬(r.status = 200 ∧ r.rtype = "basic") → (swV10Fetch ctx net cs req).caches = cs)) ∧
    (∀ (ctx : Ctx) (net : Network) (online : Bool) (cs : CacheState) (req : Request)
        (r : Response),
      req.method = "GET" → strEnds req.url.hostname "supabase.co" = false →
      isNavLike req = false →
      cachesMatch cs req.url.href = none → net req.url.href = some r →
      (swV12Fetch ctx net online cs req).outcome = .ok r ∧
      ((r.status = 200 ∨ r.rtype ∈ ["basic", "cors", "opaque"]) →
        cachesGetIn (swV12Fetch ctx net online cs req).caches DYNAMIC_v12 req.url.href = some r) ∧
      (¬(r.status = 200 ∨ r.rtype ∈ ["basic", "cors", "opaque"]) →
        (swV12Fetch ctx net online cs req).caches = cs)) := by
  refine ⟨?_, ?_, ?_⟩
  · intro ctx net cs req r hm hnav hmiss hnet
    have hred : swFetch ctx net cs req = cacheFirstCore DYNAMIC_v11 ctx net cs req [] := by
      simp [swFetch, hm, hnav]
    rw [hred]
    by_cases hcond : r.status = 200 ∨ r.rtype ∈ ["basic", "cors", "opaque"]
    · have hstep : cacheFirstCore DYNAMIC_v11 ctx net cs req [] =
          ⟨.ok r
          , [.cacheMatch req.url.href, .netFetch req.url.href false,
              .cacheOpen DYNAMIC_v11, .cachePut DYNAMIC_v11 req.url.href]
          , openPut cs DYNAMIC_v11 req.url.href r⟩ := by
        simp only [cacheFirstCore, hmiss, hnet]
        rw [if_pos hcond]
        simp
      rw [hstep]
      exact ⟨rfl, fun _ => cachesGetIn_openPut cs DYNAMIC_v11 req.url.href r,
        fun hne => absurd hcond hne⟩
    · have hstep : cacheFirstCore DYNAMIC_v11 ctx net cs req [] =
          ⟨.ok r, [.cacheMatch req.url.href, .netFetch req.url.href false], cs⟩ := by
        simp only [cacheFirstCore, hmiss, hnet]
        rw [if_neg hcond]
        simp
      rw [hstep]
      exact ⟨rfl, fun hc => absurd hc hcond, fun _ => rfl⟩
  · intro ctx net cs req r hm ho hmiss hnet
    have hrm : reqMatch cs req = none := by simp [reqMatch, hm, hmiss]
    by_cases hcond : r.status = 200 ∧ r.rtype = "basic"
    · have hneg : ¬(r.status ≠ 200 ∨ r.rtype ≠ "basic") := by
        push_neg
        exact hcond
      refine ⟨?_, fun _ => ?_, fun hne => absurd hcond hne⟩ <;>
        simp [swV10Fetch, ho, hrm, hnet, hneg, hm, cachesGetIn_openPut]
    · have hpos : r.status ≠ 200 ∨ r.rtype ≠ "basic" := by
        rcases Decidable.not_and_iff_or_not.mp hcond with h | h
        · exact Or.inl h
        · exact Or.inr h
      refine ⟨?_, fun hc => absurd hc hcond, fun _ => ?_⟩ <;>
        simp [swV10Fetch, ho, hrm, hnet, hpos]
  · intro ctx net online cs req r hm hsb hnav hmiss hnet
    have hred : swV12Fetch ctx net online cs req
        = cacheFirstCore DYNAMIC_v12 ctx net cs req [] := by
      simp [swV12Fetch, hm, hsb, hnav]
    rw [hred]
    by_cases hcond : r.status = 200 ∨ r.rtype ∈ ["basic", "cors", "opaque"]
    · have hstep : cacheFirstCore DYNAMIC_v12 ctx net cs req [] =
          ⟨.ok r
          , [.cacheMatch req.url.href, .netFetch req.url.href false,
              .cacheOpen DYNAMIC_v12, .cachePut DYNAMIC_v12 req.url.href]
          , openPut cs DYNAMIC_v12 req.url.href r⟩ := by
        simp only [cacheFirstCore, hmiss, hnet]
        rw [if_pos hcond]
        simp
      rw [hstep]
      exact ⟨rfl, fun _ => cachesGetIn_openPut cs DYNAMIC_v12 req.url.href r,
        fun hne => absurd hcond hne⟩
    · have hstep : cacheFirstCore DYNAMIC_v12 ctx net cs req [] =
          ⟨.ok r, [.cacheMatch req.url.href, .netFetch req.url.href false], cs⟩ := by
        simp only [cacheFirstCore, hmiss, hnet]
        rw [if_neg hcond]
        simp
      rw [hstep]
      exact ⟨rfl, fun hc => absurd hc hcond, fun _ => rfl⟩

/-- C2 witness: the amended cache-miss theorem applied to a concrete miss
on a working network: the fresh 200 basic response is returned and a copy
appears in the dynamic partition of sw.js. -/
theorem C2_amended_cacheMissStore_witness :
    (swFetch ctxEx netFresh [] reqPlain).outcome = .ok respFresh ∧
    cachesGetIn (swFetch ctxEx netFresh [] reqPlain).caches DYNAMIC_v11 reqPlain.url.href
      = some respFresh := by
  have h := C2_amended_cacheMissStore.1 ctxEx netFresh [] reqPlain respFresh rfl (by decide) rfl rfl
  exact ⟨h.1, h.2.1 (by decide)⟩

/-- C5 (counterexample): part_000 has no method check, so a same-origin
POST request is intercepted (respondWith is called) and a cache lookup is
performed on its behalf, contradicting the claim that every non-GET
request is passed through untouched with no caching side effect. -/
theorem C5_counterexample :
    reqPost.method ≠ "GET" ∧
    (swV10Fetch ctxEx netFresh csC1 reqPost).outcome ≠ .passThrough ∧
    Effect.cacheMatch reqPost.url.href ∈ (swV10Fetch ctxEx netFresh csC1 reqPost).effects := by
  decide

/-- C5 (amended): sw.js, part_001 and part_003 pass every non-GET request
through untouched with no effect; part_000 and part_002 have no method
check: in part_000 a same-origin non-GET request, and in part_002 every
handled non-GET request (same-origin, or cross-origin matching one of the
supabase, cdnjs.cloudflare.com or cdn.jsdelivr.net substrings), is
intercepted with a caching side effect performed on its behalf — a cache
lookup, except that a supabase.co request whose fetch succeeds instead
opens the runtime partition for a write attempt — yet no cache entry is
ever added for it (the Cache API rejects non-GET writes), so every cache
lookup still sees the same entries. -/
theorem C5_amended_nonGet :
    (∀ (ctx : Ctx) (net : Network) (cs : CacheState) (req : Request), req.method ≠ "GET" →
      swFetch ctx net cs req = ⟨.passThrough, [], cs⟩) ∧
    (∀ (net : Network) (cs : CacheState) (req : Request), req.method ≠ "GET" →
      iosFetch net cs req = ⟨.passThrough, [], cs⟩) ∧
    (∀ (ctx : Ctx) (net : Network) (online : Bool) (cs : CacheState) (req : Request),
      req.method ≠ "GET" → swV12Fetch ctx net online cs req = ⟨.passThrough, [], cs⟩) ∧
    (∀ (ctx : Ctx) (net : Network) (cs : CacheState) (req : Request),
      req.method ≠ "GET" → req.url.origin = ctx.locOrigin →
      (swV10Fetch ctx net cs req).outcome ≠ .passThrough ∧
      Effect.cacheMatch req.url.href ∈ (swV10Fetch ctx net cs req).effects ∧
      ∀ k, cachesMatch (swV10Fetch ctx net cs req).caches k = cachesMatch cs k) ∧
    (∀ (ctx : Ctx) (net : Network) (cs : CacheState) (req : Request),
      req.method ≠ "GET" →
      ¬(req.url.origin ≠ ctx.locOrigin ∧ strIncludes req.url.href "supabase" = false ∧
        strIncludes req.url.href "cdnjs.cloudflare.com" = false ∧
        strIncludes req.url.href "cdn.jsdelivr.net" = false) →
      (tubaFetch ctx net cs req).outcome ≠ .passThrough ∧
      (Effect.cacheMatch req.url.href ∈ (tubaFetch ctx net cs req).effects ∨
        Effect.cacheOpen RUNTIME_v210 ∈ (tubaFetch ctx net cs req).effects) ∧
      (strIncludes req.url.href "supabase.co" = false →
        Effect.cacheMatch req.url.href ∈ (tubaFetch ctx net cs req).effects) ∧
      ∀ k, cachesMatch (tubaFetch ctx net cs req).caches k = cachesMatch cs k) := by
  refine ⟨?_, ?_, ?_, ?_, ?_⟩
  · intro ctx net cs req hm
    unfold swFetch
    rw [if_neg hm]
  · intro net cs req hm
    unfold iosFetch
    rw [if_neg hm]
  · intro ctx net online cs req hm
    unfold swV12Fetch
    rw [if_neg hm]
  · intro ctx net cs req hm ho
    have hrm : reqMatch cs req = none := by simp [reqMatch, hm]
    rcases hn : net req.url.href with _ | nr
    · rcases ha : req.accept with _ | a
      · refine ⟨?_, ?_, fun k => ?_⟩ <;> simp [swV10Fetch, ho, hrm, hn, ha]
      · by_cases hh : strIncludes a "text/html" = true
        · rcases hs : cachesMatch cs "/index.html" with _ | s
          · refine ⟨?_, ?_, fun k => ?_⟩ <;> simp [swV10Fetch, ho, hrm, hn, ha, hh, hs]
          · refine ⟨?_, ?_, fun k => ?_⟩ <;> simp [swV10Fetch, ho, hrm, hn, ha, hh, hs]
        · refine ⟨?_, ?_, fun k => ?_⟩ <;> simp [swV10Fetch, ho, hrm, hn, ha, hh]
    · by_cases hb : nr.status ≠ 200 ∨ nr.rtype ≠ "basic"
      · refine ⟨?_, ?_, fun k => ?_⟩ <;> simp [swV10Fetch, ho, hrm, hn, hb]
      · refine ⟨?_, ?_, fun k => ?_⟩ <;>
          simp [swV10Fetch, ho, hrm, hn, hb, hm, cachesMatch_cachesOpen]
  · intro ctx net cs req hm hskip
    have hrm : reqMatch cs req = none := by simp [reqMatch, hm]
    by_cases hsb : strIncludes req.url.href "supabase.co" = true
    · rcases hn : net req.url.href with _ | r
      · refine ⟨?_, ?_, ?_, fun k => ?_⟩ <;>
          simp [tubaFetch, hskip, hsb, hrm, hn]
      · refine ⟨?_, ?_, ?_, fun k => ?_⟩ <;>
          simp [tubaFetch, hskip, hsb, hrm, hn, hm, cachesMatch_cachesOpen]
    · have hsb2 : strIncludes req.url.href "supabase.co" = false := Bool.eq_false_iff.mpr hsb
      rcases hn : net req.url.href with _ | r
      · by_cases hnav2 : req.mode = "navigate"
        · rcases hs : cachesMatch cs "/index.html" with _ | s <;>
            (refine ⟨?_, ?_, ?_, fun k => ?_⟩ <;>
              simp [tubaFetch, hskip, hsb2, hrm, hn, hnav2, hs])
        · refine ⟨?_, ?_, ?_, fun k => ?_⟩ <;>
            simp [tubaFetch, hskip, hsb2, hrm, hn, hnav2]
      · by_cases hb : r.status ≠ 200 ∨ r.rtype = "error"
        · refine ⟨?_, ?_, ?_, fun k => ?_⟩ <;>
            simp [tubaFetch, hskip, hsb2, hrm, hn, hb]
        · by_cases horig : req.url.origin = ctx.locOrigin
          · refine ⟨?_, ?_, ?_, fun k => ?_⟩ <;>
              simp [tubaFetch, hskip, hsb2, hrm, hn, hb, horig, hm, cachesMatch_cachesOpen]
          · have hsubs : ¬(strIncludes req.url.href "supabase" = false ∧
                strIncludes req.url.href "cdnjs.cloudflare.com" = false ∧
                strIncludes req.url.href "cdn.jsdelivr.net" = false) :=
              fun hx => hskip ⟨horig, hx⟩
            refine ⟨?_, ?_, ?_, fun k => ?_⟩ <;>
              simp [tubaFetch, hsubs, hsb2, hrm, hn, hb, horig, hm, cachesMatch_cachesOpen]

/-- C5 witness: the amended non-GET theorem applied to a concrete
same-origin POST request in part_000 and to a concrete cross-origin
CDN-matched POST request in part_002. -/
theorem C5_amended_nonGet_witness :
    (swV10Fetch ctxEx netFresh csC1 reqPost).outcome ≠ .passThrough ∧
    Effect.cacheMatch reqPost.url.href ∈ (swV10Fetch ctxEx netFresh csC1 reqPost).effects ∧
    cachesMatch (swV10Fetch ctxEx netFresh csC1 reqPost).caches "https://app.test/page"
      = cachesMatch csC1 "https://app.test/page" ∧
    (tubaFetch ctxEx netFresh csC1 reqCdnPost).outcome ≠ .passThrough ∧
    Effect.cacheMatch reqCdnPost.url.href ∈ (tubaFetch ctxEx netFresh csC1 reqCdnPost).effects ∧
    cachesMatch (tubaFetch ctxEx netFresh csC1 reqCdnPost).caches "https://app.test/page"
      = cachesMatch csC1 "https://app.test/page" := by
  have h0 := C5_amended_nonGet.2.2.2.1 ctxEx netFresh csC1 reqPost (by decide) (by decide)
  have h2 := C5_amended_nonGet.2.2.2.2 ctxEx netFresh csC1 reqCdnPost (by decide) (by decide)
  exact ⟨h0.1, h0.2.1, h0.2.2 _, h2.1, h2.2.2.1 (by decide), h2.2.2.2 _⟩

/-- C8 (counterexample): in sw.js one failing asset makes the atomic
addAll reject, so nothing is cached and skipWaiting is skipped, but the
trailing catch swallows the error: the promise handed to waitUntil
resolves, so the install step is NOT aborted, contradicting the claim. -/
theorem C8_counterexample :
    netNoCdn "https://cdn.jsdelivr.net/npm/@supabase/supabase-js@2" = none ∧
    "https://cdn.jsdelivr.net/npm/@supabase/supabase-js@2" ∈ staticAssetsV11 ctxEx ∧
    (swInstall ctxEx netNoCdn []).aborted = false ∧
    (swInstall ctxEx netNoCdn []).skipWaiting = false := by
  decide

/-- C8 (amended): in the atomic drafts a single failing asset makes the
addAll reject, so no asset is stored and skipWaiting is never signalled,
but the trailing catch converts the failure into success, so the install
event itself completes instead of aborting; when every asset fetch
succeeds, skipWaiting is signalled.  In the per-asset draft part_003 each
failure is caught individually and skipWaiting is always reached. -/
theorem C8_amended_install :
    (∀ (ctx : Ctx) (net : Network) (cs : CacheState),
      (∃ u ∈ staticAssetsV11 ctx, net u = none) →
      (swInstall ctx net cs).caches = cachesOpen cs STATIC_v11 ∧
      (swInstall ctx net cs).skipWaiting = false ∧
      (swInstall ctx net cs).aborted = false) ∧
    (∀ (ctx : Ctx) (net : Network) (cs : CacheState),
      (∀ u ∈ staticAssetsV11 ctx, (net u).isSome = true) →
      (swInstall ctx net cs).skipWaiting = true ∧ (swInstall ctx net cs).aborted = false) ∧
    (∀ (ctx : Ctx) (net : Network) (cs : CacheState),
      (swV12Install ctx net cs).skipWaiting = true ∧ (swV12Install ctx net cs).aborted = false) := by
  refine ⟨?_, ?_, ?_⟩
  · intro ctx net cs hex
    have hall : (staticAssetsV11 ctx).all (fun u => (net u).isSome) = false := by
      rcases hex with ⟨u, hu, hnu⟩
      rw [Bool.eq_false_iff]
      intro hall
      have := List.all_eq_true.mp hall u hu
      simp [hnu] at this
    simp [swInstall, addAllAtomic, hall]
  · intro ctx net cs hall
    have h : (staticAssetsV11 ctx).all (fun u => (net u).isSome) = true :=
      List.all_eq_true.mpr hall
    simp [swInstall, addAllAtomic, h]
  · intro ctx net cs
    simp [swV12Install]

/-- C8 witness: the amended install theorem applied to a concrete network
on which a CDN asset fails. -/
theorem C8_amended_install_witness :
    (swInstall ctxEx netNoCdn []).caches = cachesOpen [] STATIC_v11 ∧
    (swInstall ctxEx netNoCdn []).skipWaiting = false ∧
    (swInstall ctxEx netNoCdn []).aborted = false :=
  C8_amended_install.1 ctxEx netNoCdn []
    ⟨"https://cdn.jsdelivr.net/npm/@supabase/supabase-js@2", by decide, by decide⟩

end TubaSW
